import Mathlib

/-!
Verification of the sentiment-analysis HTTP service.

The development shallowly embeds the Python sources of the service:
`app/config.py` (settings), `app/sentiment.py` (the analyzer wrapper and
its singleton accessor), `app/models.py` (the validated request/response
contracts) and `app/main.py` (the route handlers).  External collaborators
are embedded as explicit parameters: the pretrained classification
capability is a function from text to an `Except`-wrapped label/score
pair, wall-clock samples are rational-number parameters, and the metric
sinks are lists of increment events returned alongside each outcome.
-/

namespace SentimentAPI

/-- Settings from `app/config.py` — the `Settings` pydantic-settings class.
All values are the stated defaults; the environment-override mechanism is
outside the model. -/
structure Settings where
  app_name : String
  app_version : String
  debug : Bool
  model_name : String
  max_length : Nat
  cost_per_inference_usd : ℚ
  host : String
  port : Nat
deriving Repr, DecidableEq

/-- The module-level `settings = Settings()` singleton with default values. -/
def settings : Settings :=
  ⟨"Sentiment API", "1.0.0", false,
   "distilbert-base-uncased-finetuned-sst-2-english", 512,
   1 / 10000, "0.0.0.0", 8000⟩

/-- Output of the external classification capability: the raw model label
and its score, as produced by `self.model(text)[0]` in
`SentimentAnalyzer.analyze`.  Scores are embedded as rationals. -/
structure ClassifierOutput where
  label : String
  score : ℚ
deriving Repr, DecidableEq

/-- Embeds the Python string method `upper()` (ASCII fragment): uppercase
every character of the string. -/
def upper (s : String) : String := ⟨s.data.map Char.toUpper⟩

/-- The `label_map` dictionary lookup of `SentimentAnalyzer.analyze`
(`app/sentiment.py` lines 74-79): `label_map.get(key, default)` with the
three canonical keys, embedded as `Option`-returning lookup. -/
def labelMapLookup (key : String) : Option String :=
  if key = "POSITIVE" then some "positive"
  else if key = "NEGATIVE" then some "negative"
  else if key = "NEUTRAL" then some "neutral"
  else none

/-- Embeds `label_map.get(result["label"].upper(), "neutral")` from
`app/sentiment.py` line 80: uppercase the raw label, look it up, and fall
back to `"neutral"`. -/
def mapLabel (raw : String) : String :=
  (labelMapLookup (upper raw)).getD "neutral"

/-- The dictionary returned by `SentimentAnalyzer.analyze` on success. -/
structure AnalyzeResult where
  sentiment : String
  confidence : ℚ
  processing_time_ms : ℚ
deriving Repr, DecidableEq

/-- The analyzer object from `app/sentiment.py`: it owns the loaded
pipeline handle (`self.model`, embedded as a fallible classification
function) and the model version string (`self.model_version`). -/
structure SentimentAnalyzer where
  model : String → Except String ClassifierOutput
  model_version : String

/-- Embeds `SentimentAnalyzer.analyze` (`app/sentiment.py` lines 50-103).
`startTime` and `endTime` are the two `time.time()` samples (seconds); the
body maps the raw label through `label_map`, propagates the score as the
confidence, computes `processing_time_ms = (endTime - startTime) * 1000`,
and re-raises any exception of the classification capability unchanged. -/
def SentimentAnalyzer.analyze (a : SentimentAnalyzer) (text : String)
    (startTime endTime : ℚ) : Except String AnalyzeResult :=
  match a.model text with
  | Except.ok result =>
      let sentiment := mapLabel result.label
      let confidence := result.score
      let processing_time_ms := (endTime - startTime) * 1000
      Except.ok ⟨sentiment, confidence, processing_time_ms⟩
  | Except.error e => Except.error e

/-- Embeds `AnalyzeRequest` from `app/models.py`: the single field `text`. -/
structure AnalyzeRequest where
  text : String
deriving Repr, DecidableEq

/-- The framework-level validation of `AnalyzeRequest`
(`Field(min_length=1, max_length=5000)` in `app/models.py` lines 17-22):
a raw body whose text has 1 to 5000 characters yields a validated
request; anything else is a validation failure. -/
def AnalyzeRequest.validate (text : String) : Option AnalyzeRequest :=
  if 1 ≤ text.length ∧ text.length ≤ 5000 then some ⟨text⟩ else none

/-- Embeds `AnalyzeResponse` from `app/models.py` lines 32-68.  The `timestamp`
field is an opaque instant, embedded as a rational. -/
structure AnalyzeResponse where
  text : String
  sentiment : String
  confidence : ℚ
  processing_time_ms : ℚ
  model_version : String
  timestamp : ℚ
  cost_estimate_usd : ℚ
deriving Repr, DecidableEq

/-- Pydantic validation performed when `AnalyzeResponse(...)` is
constructed: `sentiment` must be one of the three literal values and
`confidence` must satisfy `ge=0.0, le=1.0`; a violation raises a
validation error, embedded as `Except.error`. -/
def AnalyzeResponse.build (text sentiment : String)
    (confidence processing_time_ms : ℚ) (model_version : String)
    (timestamp cost_estimate_usd : ℚ) : Except String AnalyzeResponse :=
  if sentiment = "positive" ∨ sentiment = "negative" ∨ sentiment = "neutral" then
    if 0 ≤ confidence ∧ confidence ≤ 1 then
      Except.ok ⟨text, sentiment, confidence, processing_time_ms,
                 model_version, timestamp, cost_estimate_usd⟩
    else Except.error "validation error for AnalyzeResponse: confidence"
  else Except.error "validation error for AnalyzeResponse: sentiment"

/-- Embeds `HealthResponse` from `app/models.py` lines 84-99. -/
structure HealthResponse where
  status : String
  version : String
  model_loaded : Bool
deriving Repr, DecidableEq

/-- Result of one call to `get_analyzer` (`app/sentiment.py` lines
111-127) that did not raise: the Python return value (read from the
`_analyzer` global, hence a priori possibly `None`), the new value of the
`_analyzer` global, and how many `SentimentAnalyzer()` constructions the
call performed. -/
structure GetResult (A : Type) where
  ret : Option A
  state : Option A
  constructions : Nat
deriving Repr, DecidableEq

/-- Embeds `get_analyzer` (`app/sentiment.py` lines 111-127) over an abstract
analyzer type `A`: if the `_analyzer` global is `None`, run the
constructor (`construct`, which may raise); otherwise reuse the cached
value.  The returned value is the `_analyzer` global after the `if`. -/
def get_analyzer (construct : Except String A) (st : Option A) :
    Except String (GetResult A) :=
  match st with
  | some a => Except.ok ⟨some a, some a, 0⟩
  | none =>
      match construct with
      | Except.ok a => Except.ok ⟨some a, some a, 1⟩
      | Except.error e => Except.error e

/-- A sequence of `n` sequential calls to `get_analyzer` in one process,
threading the `_analyzer` global: collects every returned value, the
final global, and the total number of constructions.  A raised
construction failure aborts the run. -/
def runCalls (construct : Except String A) :
    Nat → Option A → Except String (List (Option A) × Option A × Nat)
  | 0, st => Except.ok ([], st, 0)
  | Nat.succ n, st =>
      match get_analyzer construct st with
      | Except.error e => Except.error e
      | Except.ok r =>
          match runCalls construct n r.state with
          | Except.error e => Except.error e
          | Except.ok (rets, fin, c) =>
              Except.ok (r.ret :: rets, fin, r.constructions + c)

/-- Outcome of `GET /health` (`app/main.py` lines 139-183). -/
inductive HealthOutcome where
  | ok (resp : HealthResponse)
  | unavailable (detail : String)
deriving Repr, DecidableEq

/-- Embeds `health_check` (`app/main.py` lines 139-183): call `get_analyzer`,
compute `model_loaded = analyzer is not None`, and return a 200
`HealthResponse` plus a success increment of the request counter; on any
exception, increment the error counter and answer 503 with the opaque
detail `"Service unhealthy"`.  The second component is the `_analyzer`
global after the call, the third the request-counter increment events
`(endpoint, status)`. -/
def health_check (construct : Except String A) (st : Option A) :
    HealthOutcome × Option A × List (String × String) :=
  match get_analyzer construct st with
  | Except.ok r =>
      let model_loaded := r.ret.isSome
      (HealthOutcome.ok ⟨"healthy", settings.app_version, model_loaded⟩,
       r.state, [("/health", "success")])
  | Except.error _ =>
      (HealthOutcome.unavailable "Service unhealthy", st,
       [("/health", "error")])

/-- Outcome of `POST /analyze` as seen by the client. -/
inductive PostOutcome where
  | success (resp : AnalyzeResponse)
  | unprocessable
  | failure (detail : String)
deriving Repr, DecidableEq

/-- Everything observable about one `POST /analyze` request: the HTTP
outcome, whether `Analyzer.analyze` was invoked, the request-counter
increments `(endpoint, status)` and the prediction-counter increments
`(sentiment)`. -/
structure RouteTrace where
  outcome : PostOutcome
  analyzerInvoked : Bool
  requestMetrics : List (String × String)
  predictionMetrics : List String
deriving Repr, DecidableEq

/-- The handler body of `analyze_sentiment` (`app/main.py` lines 224-286)
for an already-validated request: run `analyzer.analyze`, build the
`AnalyzeResponse` (stamping the current time `now` and the configured
cost constant), and on success emit the success request increment and the
prediction increment; any exception — from the analyzer or from response
validation — is caught by the `except` block, which increments the error
counter and raises HTTP 500 with detail `"Analysis failed: <message>"`. -/
def handle_analyze (a : SentimentAnalyzer) (req : AnalyzeRequest)
    (startTime endTime now : ℚ) :
    PostOutcome × List (String × String) × List String :=
  match a.analyze req.text startTime endTime with
  | Except.ok result =>
      match AnalyzeResponse.build req.text result.sentiment
              result.confidence result.processing_time_ms a.model_version
              now settings.cost_per_inference_usd with
      | Except.ok resp =>
          (PostOutcome.success resp, [("/analyze", "success")],
           [resp.sentiment])
      | Except.error e =>
          (PostOutcome.failure ("Analysis failed: " ++ e),
           [("/analyze", "error")], [])
  | Except.error e =>
      (PostOutcome.failure ("Analysis failed: " ++ e),
       [("/analyze", "error")], [])

/-- The full `POST /analyze` surface: framework validation of the body
against `AnalyzeRequest` first (a failure answers 422 before the handler
runs, so the analyzer is never invoked), then the handler. -/
def post_analyze (a : SentimentAnalyzer) (rawText : String)
    (startTime endTime now : ℚ) : RouteTrace :=
  match AnalyzeRequest.validate rawText with
  | none => ⟨PostOutcome.unprocessable, false, [], []⟩
  | some req =>
      match handle_analyze a req startTime endTime now with
      | (o, rm, pm) => ⟨o, true, rm, pm⟩

/-!
Interleaving model of two threads racing through `get_analyzer` before
the first construction has completed.  Each thread executes, in order:
the `_analyzer is None` check (one atomic read), then — if the read saw
`None` — the construction and assignment `_analyzer = SentimentAnalyzer()`
(construction is long and releases the interpreter lock, so another
thread may run between the check and the assignment), then the final
`return _analyzer` read.  Analyzer instances are identified by the value
of a fresh-id counter at construction time.
-/

/-- Program counter of one thread inside `get_analyzer`:
0 = about to run the `is None` check, 1 = about to construct and assign,
2 = about to read `_analyzer` for the return, 3 = returned. -/
structure ThreadState where
  pc : Nat
  ret : Option Nat
deriving Repr, DecidableEq

/-- Global state of the two-thread race: the `_analyzer` global (an
instance id or `None`), the fresh-id counter, both threads, and the total
number of `SentimentAnalyzer()` constructions performed so far. -/
structure RaceState where
  g : Option Nat
  next : Nat
  tA : ThreadState
  tB : ThreadState
  constructions : Nat
deriving Repr, DecidableEq

/-- One atomic step of a single thread inside `get_analyzer`, given the
global `_analyzer` value and the fresh-id counter.  Returns the new
thread state, new global, new counter, and constructions performed. -/
def threadStep (g : Option Nat) (next : Nat) (t : ThreadState) :
    ThreadState × Option Nat × Nat × Nat :=
  match t.pc with
  | 0 => -- the check: if _analyzer is None fall into the branch
      match g with
      | none => (⟨1, t.ret⟩, g, next, 0)
      | some _ => (⟨2, t.ret⟩, g, next, 0)
  | 1 => -- _analyzer = SentimentAnalyzer(): construct a fresh instance
      (⟨2, t.ret⟩, some next, next + 1, 1)
  | 2 => -- return _analyzer
      (⟨3, g⟩, g, next, 0)
  | _ => (t, g, next, 0)

/-- Run the race under an explicit schedule: `true` steps thread A,
`false` steps thread B. -/
def raceRun (sched : List Bool) (st : RaceState) : RaceState :=
  match sched with
  | [] => st
  | c :: rest =>
      let st2 :=
        if c then
          match threadStep st.g st.next st.tA with
          | (tA2, g2, n2, k) => ⟨g2, n2, tA2, st.tB, st.constructions + k⟩
        else
          match threadStep st.g st.next st.tB with
          | (tB2, g2, n2, k) => ⟨g2, n2, st.tA, tB2, st.constructions + k⟩
      raceRun rest st2

/-- Both threads at the check, no analyzer constructed yet. -/
def raceInit : RaceState := ⟨none, 0, ⟨0, none⟩, ⟨0, none⟩, 0⟩

/-! Concrete instantiations of the external classification capability,
used to exercise the theorems on concrete runs. -/

/-- An analyzer whose pipeline always classifies as `POSITIVE` with score
9/10. -/
def demoAnalyzer : SentimentAnalyzer :=
  ⟨fun _ => Except.ok ⟨"POSITIVE", 9 / 10⟩, "demo-model"⟩

/-- An analyzer whose pipeline always raises. -/
def failingAnalyzer : SentimentAnalyzer :=
  ⟨fun _ => Except.error "boom", "demo-model"⟩

/-- An analyzer whose pipeline reports a score outside the unit
interval. -/
def badScoreAnalyzer : SentimentAnalyzer :=
  ⟨fun _ => Except.ok ⟨"POSITIVE", 3 / 2⟩, "demo-model"⟩

/-! Helper lemmas shared by the claim theorems. -/

/-- Decidable equality on `Except`, for evaluating concrete runs. -/
instance instDecidableEqExcept {ε α : Type} [DecidableEq ε] [DecidableEq α] :
    DecidableEq (Except ε α) := fun x y =>
  match x, y with
  | Except.ok a, Except.ok b =>
      if h : a = b then isTrue (by rw [h])
      else isFalse (by intro hc; cases hc; exact h rfl)
  | Except.error a, Except.error b =>
      if h : a = b then isTrue (by rw [h])
      else isFalse (by intro hc; cases hc; exact h rfl)
  | Except.ok _, Except.error _ => isFalse (by intro hc; cases hc)
  | Except.error _, Except.ok _ => isFalse (by intro hc; cases hc)

/-- Success of `AnalyzeResponse` construction forces the validated
bounds: confidence in the unit interval and a canonical sentiment. -/
theorem build_ok_bounds (text sentiment : String) (confidence ptm : ℚ)
    (mv : String) (ts cost : ℚ) (resp : AnalyzeResponse)
    (h : AnalyzeResponse.build text sentiment confidence ptm mv ts cost =
      Except.ok resp) :
    0 ≤ resp.confidence ∧ resp.confidence ≤ 1
    ∧ (resp.sentiment = "positive" ∨ resp.sentiment = "negative" ∨
        resp.sentiment = "neutral") := by
  simp only [AnalyzeResponse.build] at h
  split_ifs at h with h1 h2
  cases h
  exact ⟨h2.1, h2.2, h1⟩

/-- The label mapping always lands in the three canonical sentiments. -/
theorem mapLabel_mem (raw : String) :
    mapLabel raw = "positive" ∨ mapLabel raw = "negative" ∨
      mapLabel raw = "neutral" := by
  simp only [mapLabel, labelMapLookup]
  split_ifs <;> simp

/-- A successful `get_analyzer` call always returns a non-`None` value,
caches exactly that value, and constructs at most once. -/
theorem get_analyzer_ok (construct : Except String A) (st : Option A)
    (r : GetResult A) (h : get_analyzer construct st = Except.ok r) :
    r.ret.isSome ∧ r.ret = r.state ∧ r.constructions ≤ 1
      ∧ (st.isSome → r.state = st ∧ r.constructions = 0) := by
  cases st with
  | some a =>
      simp only [get_analyzer] at h
      cases h
      simp
  | none =>
      cases hc : construct with
      | ok a =>
          simp only [get_analyzer, hc] at h
          cases h
          simp
      | error e =>
          simp only [get_analyzer, hc] at h
          cases h

/-! Claim theorems. -/

/-- C1: the label-mapping function is total and deterministic — for every
raw label string, matching is exact and case-insensitive against
POSITIVE, NEGATIVE and NEUTRAL, mapping to the canonical sentiments
"positive", "negative" and "neutral" respectively, every other raw label
maps to "neutral", the empty string included, and the result is always
one of the three canonical values (the mapping never fails). -/
theorem C1_label_mapping_total (raw : String) :
    mapLabel raw =
      (if upper raw = "POSITIVE" then "positive"
       else if upper raw = "NEGATIVE" then "negative"
       else if upper raw = "NEUTRAL" then "neutral"
       else "neutral")
    ∧ (mapLabel raw = "positive" ∨ mapLabel raw = "negative" ∨
        mapLabel raw = "neutral")
    ∧ mapLabel "" = "neutral" := by
  refine ⟨?_, mapLabel_mem raw, by decide⟩
  simp only [mapLabel, labelMapLookup]
  split_ifs <;> rfl

/-- C3: a request body whose text is empty or longer than 5000 characters
is answered 422 by POST /analyze without ever invoking the analyzer,
while every text of 1 to 5000 characters passes validation and reaches
the analyzer. -/
theorem C3_validation_boundary (a : SentimentAnalyzer) (rawText : String)
    (t0 t1 now : ℚ) :
    (rawText.length = 0 ∨ 5000 < rawText.length →
        (post_analyze a rawText t0 t1 now).outcome = PostOutcome.unprocessable
        ∧ (post_analyze a rawText t0 t1 now).analyzerInvoked = false)
    ∧ (1 ≤ rawText.length ∧ rawText.length ≤ 5000 →
        (post_analyze a rawText t0 t1 now).analyzerInvoked = true) := by
  constructor
  · intro h
    have hval : AnalyzeRequest.validate rawText = none := by
      simp only [AnalyzeRequest.validate, ite_eq_right_iff]
      intro hcon
      rcases h with h | h
      · omega
      · omega
    simp [post_analyze, hval]
  · intro h
    have hval : AnalyzeRequest.validate rawText = some ⟨rawText⟩ := by
      simp [AnalyzeRequest.validate, h.1, h.2]
    simp only [post_analyze, hval]

/-- C2: for every valid input text (1 to 5000 characters), when the
underlying classification capability returns a score in the unit
interval, POST /analyze answers 200 with an AnalyzeResponse whose
confidence is that score and lies in the unit interval, whose sentiment
is one of the three canonical values, whose text echoes the input, and
whose cost_estimate_usd is the configured cost constant, identical for
every call. -/
theorem C2_analyze_response_fields (a : SentimentAnalyzer)
    (rawText : String) (out : ClassifierOutput) (t0 t1 now : ℚ)
    (hlen : 1 ≤ rawText.length ∧ rawText.length ≤ 5000)
    (hmodel : a.model rawText = Except.ok out)
    (hscore : 0 ≤ out.score ∧ out.score ≤ 1) :
    ∃ resp,
      (post_analyze a rawText t0 t1 now).outcome = PostOutcome.success resp
      ∧ resp.text = rawText
      ∧ resp.confidence = out.score
      ∧ 0 ≤ resp.confidence ∧ resp.confidence ≤ 1
      ∧ (resp.sentiment = "positive" ∨ resp.sentiment = "negative" ∨
          resp.sentiment = "neutral")
      ∧ resp.cost_estimate_usd = settings.cost_per_inference_usd := by
  have hval : AnalyzeRequest.validate rawText = some ⟨rawText⟩ := by
    simp [AnalyzeRequest.validate, hlen.1, hlen.2]
  have hbuild : AnalyzeResponse.build rawText (mapLabel out.label) out.score
      ((t1 - t0) * 1000) a.model_version now settings.cost_per_inference_usd =
      Except.ok ⟨rawText, mapLabel out.label, out.score, (t1 - t0) * 1000,
                 a.model_version, now, settings.cost_per_inference_usd⟩ := by
    simp [AnalyzeResponse.build, mapLabel_mem out.label, hscore.1, hscore.2]
  refine ⟨⟨rawText, mapLabel out.label, out.score, (t1 - t0) * 1000,
          a.model_version, now, settings.cost_per_inference_usd⟩,
          ?_, rfl, rfl, hscore.1, hscore.2, mapLabel_mem out.label, rfl⟩
  simp [post_analyze, hval, handle_analyze, SentimentAnalyzer.analyze,
    hmodel, hbuild]

/-- Witness for C2 on a concrete classifier output with score 9/10. -/
theorem C2_analyze_response_fields_witness :
    ∃ resp,
      (post_analyze demoAnalyzer "great" 0 1 2).outcome =
        PostOutcome.success resp
      ∧ resp.text = "great"
      ∧ resp.confidence = (9 / 10 : ℚ)
      ∧ 0 ≤ resp.confidence ∧ resp.confidence ≤ 1
      ∧ (resp.sentiment = "positive" ∨ resp.sentiment = "negative" ∨
          resp.sentiment = "neutral")
      ∧ resp.cost_estimate_usd = settings.cost_per_inference_usd :=
  C2_analyze_response_fields demoAnalyzer "great" ⟨"POSITIVE", 9 / 10⟩ 0 1 2
    (by decide) rfl
    (by constructor <;> norm_num)

/-- C4: any number of sequential get_analyzer calls in one process
return the identical cached instance, with at most one construction over
the whole run and none at all once the instance is cached. -/
theorem C4_singleton_at_most_once (construct : Except String A)
    (n : Nat) (st finSt : Option A) (rets : List (Option A)) (cons : Nat)
    (h : runCalls construct n st = Except.ok (rets, finSt, cons)) :
    cons ≤ 1 ∧ (∀ r ∈ rets, r = finSt ∧ r.isSome)
      ∧ (st.isSome → cons = 0 ∧ finSt = st) := by
  induction n generalizing st finSt rets cons with
  | zero =>
      simp only [runCalls, Except.ok.injEq, Prod.mk.injEq] at h
      obtain ⟨h1, h2, h3⟩ := h
      subst h1; subst h2; subst h3
      exact ⟨Nat.zero_le 1, by simp, fun _ => ⟨rfl, rfl⟩⟩
  | succ n ih =>
      cases hg : get_analyzer construct st with
      | error e =>
          simp only [runCalls, hg] at h
          cases h
      | ok r =>
          simp only [runCalls, hg] at h
          cases hr : runCalls construct n r.state with
          | error e =>
              rw [hr] at h
              simp only at h
              cases h
          | ok trip =>
              obtain ⟨rets2, fin2, c2⟩ := trip
              rw [hr] at h
              simp only [Except.ok.injEq, Prod.mk.injEq] at h
              obtain ⟨h1, h2, h3⟩ := h
              subst h1; subst h2; subst h3
              obtain ⟨hretSome, hretSt, hconsLe, hcached⟩ :=
                get_analyzer_ok construct st r hg
              have hstSome : r.state.isSome := by
                rw [← hretSt]; exact hretSome
              obtain ⟨hc2, hfin⟩ := (ih r.state fin2 rets2 c2 hr).2.2 hstSome
              refine ⟨by omega, ?_, ?_⟩
              · intro x hx
                rcases List.mem_cons.mp hx with hx | hx
                · subst hx
                  exact ⟨by rw [hretSt, ← hfin], hretSome⟩
                · exact (ih r.state fin2 rets2 c2 hr).2.1 x hx
              · intro hstIsSome
                obtain ⟨hstate, hcons0⟩ := hcached hstIsSome
                constructor
                · omega
                · rw [hfin, hstate]

/-- Witness for C4: three calls starting from an empty cache return the
same instance three times with exactly one construction. -/
theorem C4_singleton_at_most_once_witness :
    (1 : Nat) ≤ 1
    ∧ (∀ r ∈ [some 7, some 7, some 7], r = some 7 ∧ r.isSome)
    ∧ ((none : Option Nat).isSome → 1 = 0 ∧ some 7 = (none : Option Nat)) :=
  C4_singleton_at_most_once (Except.ok 7) 3 none (some 7)
    [some 7, some 7, some 7] 1 (by decide)

/-- Witness for C3 at the empty string and at a two-character text. -/
theorem C3_validation_boundary_witness :
    ((post_analyze demoAnalyzer "" 0 1 2).outcome = PostOutcome.unprocessable
      ∧ (post_analyze demoAnalyzer "" 0 1 2).analyzerInvoked = false)
    ∧ (post_analyze demoAnalyzer "hi" 0 1 2).analyzerInvoked = true :=
  ⟨(C3_validation_boundary demoAnalyzer "" 0 1 2).1 (Or.inl (by decide)),
   (C3_validation_boundary demoAnalyzer "hi" 0 1 2).2 (by decide)⟩

/-- C5: the get_analyzer body guards construction only by an
unsynchronized check of the global for None, so two callers that both
pass the check before either assigns each construct their own
SentimentAnalyzer.  Under the interleaving in which thread A runs the
check, thread B runs the check, then each constructs, assigns and
returns, the process performs two constructions and the two threads
return two distinct instances — refuting construct-once. -/
theorem C5_race_two_constructions :
    (raceRun [true, false, true, true, false, false] raceInit).constructions = 2
    ∧ (raceRun [true, false, true, true, false, false] raceInit).tA.ret = some 0
    ∧ (raceRun [true, false, true, true, false, false] raceInit).tB.ret = some 1 := by
  decide

/-- C6: when the classification capability raises, the analyzer
re-raises the same exception, producing no result, and POST /analyze
answers 500 with detail "Analysis failed: " followed by the message,
incrementing the error request counter for the /analyze endpoint and no
prediction counter. -/
theorem C6_inference_failure (a : SentimentAnalyzer) (rawText e : String)
    (t0 t1 now : ℚ)
    (hlen : 1 ≤ rawText.length ∧ rawText.length ≤ 5000)
    (hmodel : a.model rawText = Except.error e) :
    a.analyze rawText t0 t1 = Except.error e
    ∧ post_analyze a rawText t0 t1 now =
        ⟨PostOutcome.failure ("Analysis failed: " ++ e), true,
         [("/analyze", "error")], []⟩ := by
  have han : a.analyze rawText t0 t1 = Except.error e := by
    simp [SentimentAnalyzer.analyze, hmodel]
  have hval : AnalyzeRequest.validate rawText = some ⟨rawText⟩ := by
    simp [AnalyzeRequest.validate, hlen.1, hlen.2]
  exact ⟨han, by simp [post_analyze, hval, handle_analyze, han]⟩

/-- Witness for C6 on an analyzer whose pipeline raises "boom". -/
theorem C6_inference_failure_witness :
    failingAnalyzer.analyze "great" 0 1 = Except.error "boom"
    ∧ post_analyze failingAnalyzer "great" 0 1 2 =
        ⟨PostOutcome.failure ("Analysis failed: " ++ "boom"), true,
         [("/analyze", "error")], []⟩ :=
  C6_inference_failure failingAnalyzer "great" "boom" 0 1 2 (by decide) rfl

/-- C7: GET /health invokes the analyzer accessor; every 200 answer has
status "healthy", the configured version and model_loaded true, with a
success increment for the /health endpoint; if accessor retrieval fails,
the handler catches the exception and answers 503 with the opaque detail
"Service unhealthy", incrementing the error counter for /health, and the
handler still returns normally (the process keeps running). -/
theorem C7_health_check_outcomes (construct : Except String A) (st : Option A) :
    (∀ r st2 ms, health_check construct st = (HealthOutcome.ok r, st2, ms) →
        r.status = "healthy" ∧ r.version = settings.app_version
        ∧ r.model_loaded = true ∧ ms = [("/health", "success")])
    ∧ (∀ e, construct = Except.error e → st = none →
        health_check construct st =
          (HealthOutcome.unavailable "Service unhealthy", none,
           [("/health", "error")])) := by
  constructor
  · intro r st2 ms h
    cases hg : get_analyzer construct st with
    | ok g =>
        obtain ⟨hretSome, _, _, _⟩ := get_analyzer_ok construct st g hg
        simp only [health_check, hg, Prod.mk.injEq, HealthOutcome.ok.injEq] at h
        obtain ⟨hr, _, hms⟩ := h
        subst hr
        exact ⟨rfl, rfl, hretSome, hms.symm⟩
    | error e =>
        simp only [health_check, hg, Prod.mk.injEq] at h
        cases h.1
  · intro e hc hst
    subst hc
    subst hst
    rfl

/-- Witness for C7 at a successful and at a failing accessor. -/
theorem C7_health_check_outcomes_witness :
    ((HealthResponse.mk "healthy" "1.0.0" true).status = "healthy"
      ∧ (HealthResponse.mk "healthy" "1.0.0" true).version = settings.app_version
      ∧ (HealthResponse.mk "healthy" "1.0.0" true).model_loaded = true
      ∧ ([("/health", "success")] : List (String × String)) =
          [("/health", "success")])
    ∧ health_check (Except.error "load failed") (none : Option Nat) =
        (HealthOutcome.unavailable "Service unhealthy", none,
         [("/health", "error")]) :=
  ⟨(C7_health_check_outcomes (Except.ok 7) (none : Option Nat)).1
      ⟨"healthy", "1.0.0", true⟩ (some 7) [("/health", "success")] (by decide),
   (C7_health_check_outcomes (Except.error "load failed")
      (none : Option Nat)).2 "load failed" rfl rfl⟩

/-- C8, counterexample: processing_time_ms is the difference of two
clock samples scaled to milliseconds, so when both samples coincide (a
clock of finite resolution may return the same reading twice) the
analyzer returns a result whose processing_time_ms is 0, refuting the
claim that it is strictly greater than 0 for every input. -/
theorem C8_processing_time_counterexample :
    ∃ r, demoAnalyzer.analyze "great" 5 5 = Except.ok r
      ∧ ¬(0 < r.processing_time_ms) := by
  refine ⟨⟨"positive", 9 / 10, 0⟩, ?_, by norm_num⟩
  simp [SentimentAnalyzer.analyze, demoAnalyzer, mapLabel, labelMapLookup,
    upper]

/-- C8, amended: for every input on which analyze succeeds,
processing_time_ms equals the wall-clock time elapsed between the start
sample and the completion sample converted to milliseconds — hence not a
constant — and it is nonnegative whenever the clock does not run
backwards, strictly positive exactly when the clock advances during the
call. -/
theorem C8_processing_time_elapsed (a : SentimentAnalyzer) (text : String)
    (t0 t1 : ℚ) (r : AnalyzeResult)
    (h : a.analyze text t0 t1 = Except.ok r) :
    r.processing_time_ms = (t1 - t0) * 1000
    ∧ (t0 ≤ t1 → 0 ≤ r.processing_time_ms)
    ∧ (t0 < t1 → 0 < r.processing_time_ms) := by
  cases hm : a.model text with
  | ok out =>
      simp only [SentimentAnalyzer.analyze, hm, Except.ok.injEq] at h
      subst h
      refine ⟨rfl, fun hle => ?_, fun hlt => ?_⟩
      · have : (0 : ℚ) ≤ t1 - t0 := by linarith
        positivity
      · have : (0 : ℚ) < t1 - t0 := by linarith
        positivity
  | error e =>
      simp only [SentimentAnalyzer.analyze, hm] at h
      cases h

/-- Witness for the amended C8 on a call whose clock advances by one
second. -/
theorem C8_processing_time_elapsed_witness :
    (AnalyzeResult.mk "positive" (9 / 10) ((1 - 0) * 1000)).processing_time_ms
        = ((1 : ℚ) - 0) * 1000
    ∧ ((0 : ℚ) ≤ 1 →
        0 ≤ (AnalyzeResult.mk "positive" (9 / 10)
              ((1 - 0) * 1000)).processing_time_ms)
    ∧ ((0 : ℚ) < 1 →
        0 < (AnalyzeResult.mk "positive" (9 / 10)
              ((1 - 0) * 1000)).processing_time_ms) :=
  C8_processing_time_elapsed demoAnalyzer "great" 0 1
    ⟨"positive", 9 / 10, (1 - 0) * 1000⟩ rfl

/-- C9: POST /analyze never answers 200 with an out-of-range confidence
or a non-canonical sentiment — every successful response satisfies the
bounds enforced by AnalyzeResponse construction — and when the
classification capability reports a score outside the unit interval on a
valid text, the response validation failure is caught by the route and
surfaced as a 500 whose detail names the confidence validation error. -/
theorem C9_no_invalid_success (a : SentimentAnalyzer) (rawText : String)
    (t0 t1 now : ℚ) :
    (∀ resp,
        (post_analyze a rawText t0 t1 now).outcome = PostOutcome.success resp →
        0 ≤ resp.confidence ∧ resp.confidence ≤ 1
        ∧ (resp.sentiment = "positive" ∨ resp.sentiment = "negative" ∨
            resp.sentiment = "neutral"))
    ∧ (∀ out, a.model rawText = Except.ok out →
        ¬(0 ≤ out.score ∧ out.score ≤ 1) →
        1 ≤ rawText.length → rawText.length ≤ 5000 →
        (post_analyze a rawText t0 t1 now).outcome =
          PostOutcome.failure
            "Analysis failed: validation error for AnalyzeResponse: confidence") := by
  constructor
  · intro resp h
    cases hv : AnalyzeRequest.validate rawText with
    | none =>
        simp only [post_analyze, hv] at h
        cases h
    | some req =>
        simp only [post_analyze, hv] at h
        cases hm : a.model req.text with
        | error e =>
            have han : a.analyze req.text t0 t1 = Except.error e := by
              simp [SentimentAnalyzer.analyze, hm]
            simp only [handle_analyze, han] at h
            cases h
        | ok out =>
            have han : a.analyze req.text t0 t1 =
                Except.ok ⟨mapLabel out.label, out.score, (t1 - t0) * 1000⟩ := by
              simp [SentimentAnalyzer.analyze, hm]
            simp only [handle_analyze, han] at h
            cases hb : AnalyzeResponse.build req.text (mapLabel out.label)
                out.score ((t1 - t0) * 1000) a.model_version now
                settings.cost_per_inference_usd with
            | error e =>
                rw [hb] at h
                simp only at h
                cases h
            | ok resp2 =>
                rw [hb] at h
                simp only [PostOutcome.success.injEq] at h
                subst h
                exact build_ok_bounds _ _ _ _ _ _ _ _ hb
  · intro out hm hbad hlo hhi
    have hv : AnalyzeRequest.validate rawText = some ⟨rawText⟩ := by
      simp [AnalyzeRequest.validate, hlo, hhi]
    have han : (⟨rawText⟩ : AnalyzeRequest).text = rawText := rfl
    have hb : AnalyzeResponse.build rawText (mapLabel out.label) out.score
        ((t1 - t0) * 1000) a.model_version now settings.cost_per_inference_usd =
        Except.error "validation error for AnalyzeResponse: confidence" := by
      simp [AnalyzeResponse.build, mapLabel_mem out.label, hbad]
    simp [post_analyze, hv, handle_analyze, SentimentAnalyzer.analyze,
      hm, hb]

/-- Witness for C9: a well-formed success satisfies the bounds, and a
score of 3/2 on a valid text is answered with the 500 validation
detail. -/
theorem C9_no_invalid_success_witness :
    (0 ≤ (AnalyzeResponse.mk "great" "positive" (9 / 10) 1000 "demo-model" 2
          (1 / 10000)).confidence
      ∧ (AnalyzeResponse.mk "great" "positive" (9 / 10) 1000 "demo-model" 2
          (1 / 10000)).confidence ≤ 1
      ∧ ((AnalyzeResponse.mk "great" "positive" (9 / 10) 1000 "demo-model" 2
            (1 / 10000)).sentiment = "positive"
        ∨ (AnalyzeResponse.mk "great" "positive" (9 / 10) 1000 "demo-model" 2
            (1 / 10000)).sentiment = "negative"
        ∨ (AnalyzeResponse.mk "great" "positive" (9 / 10) 1000 "demo-model" 2
            (1 / 10000)).sentiment = "neutral"))
    ∧ (post_analyze badScoreAnalyzer "great" 0 1 2).outcome =
        PostOutcome.failure
          "Analysis failed: validation error for AnalyzeResponse: confidence" :=
  ⟨(C9_no_invalid_success demoAnalyzer "great" 0 1 2).1
      ⟨"great", "positive", 9 / 10, 1000, "demo-model", 2, 1 / 10000⟩
      (by
        have hv : AnalyzeRequest.validate "great" = some ⟨"great"⟩ := by
          decide
        simp [post_analyze, hv, handle_analyze, SentimentAnalyzer.analyze,
          demoAnalyzer, mapLabel, labelMapLookup, upper,
          AnalyzeResponse.build, settings]
        norm_num),
   (C9_no_invalid_success badScoreAnalyzer "great" 0 1 2).2
      ⟨"POSITIVE", 3 / 2⟩ rfl
      (by intro hc; exact absurd hc.2 (by norm_num))
      (by decide) (by decide)⟩

/-- C10: every 200 answer of GET /health reports model_loaded true,
because a get_analyzer call that does not raise always returns a
non-None analyzer and the handler computes model_loaded as that returned
value being non-None. -/
theorem C10_health_model_loaded (construct : Except String A)
    (st st2 : Option A) (r : HealthResponse) (ms : List (String × String))
    (h : health_check construct st = (HealthOutcome.ok r, st2, ms)) :
    r.model_loaded = true
    ∧ ∀ g, get_analyzer construct st = Except.ok g → g.ret.isSome := by
  cases hg : get_analyzer construct st with
  | ok g =>
      obtain ⟨hretSome, _, _, _⟩ := get_analyzer_ok construct st g hg
      simp only [health_check, hg, Prod.mk.injEq, HealthOutcome.ok.injEq] at h
      obtain ⟨hr, _, _⟩ := h
      subst hr
      refine ⟨hretSome, fun g2 hg2 => ?_⟩
      have hgg : g = g2 := Except.ok.inj hg2
      rw [← hgg]
      exact hretSome
  | error e =>
      simp only [health_check, hg, Prod.mk.injEq] at h
      cases h.1

/-- Witness for C10 on a successful first-access health check. -/
theorem C10_health_model_loaded_witness :
    (HealthResponse.mk "healthy" "1.0.0" true).model_loaded = true
    ∧ ∀ g, get_analyzer (Except.ok 7) (none : Option Nat) = Except.ok g →
        g.ret.isSome :=
  C10_health_model_loaded (Except.ok 7) (none : Option Nat) (some 7)
    ⟨"healthy", "1.0.0", true⟩ [("/health", "success")] (by decide)

end SentimentAPI
